import Mathlib

/-!
Shallow embedding of networking_ovn/ml2/mech_driver.py (OVNMechanismDriver)
and theorems checking the natural-language specification against it.

Python dicts of string keys are modelled as association lists, Python sets
as deduplicated lists compared by membership, exceptions as Except, and
external collaborators (the OVN northbound/southbound stores, the core
plugin, helpers from networking_ovn.common that are not part of the given
source tree) as function parameters.
-/

namespace MechDriver

/-- Constant portbindings.VNIC_NORMAL. -/
def VNIC_NORMAL : String := "normal"

/-- Constant const.PORT_STATUS_ACTIVE. -/
def PORT_STATUS_ACTIVE : String := "ACTIVE"

/-- Constant const.PORT_STATUS_DOWN. -/
def PORT_STATUS_DOWN : String := "DOWN"

/-- The list self.supported_vnic_types set up in _setup_vif_port_bindings. -/
def supported_vnic_types : List String := [VNIC_NORMAL]

/-- Constant ovn_const.CHASSIS_DATAPATH_NETDEV. -/
def CHASSIS_DATAPATH_NETDEV : String := "netdev"

/-- Constant ovn_const.CHASSIS_IFACE_DPDKVHOSTUSER. -/
def CHASSIS_IFACE_DPDKVHOSTUSER : String := "dpdkvhostuser"

/-- Constant portbindings.VIF_TYPE_OVS. -/
def VIF_TYPE_OVS : String := "ovs"

/-- Constant portbindings.VIF_TYPE_VHOST_USER. -/
def VIF_TYPE_VHOST_USER : String := "vhostuser"

/-- Supported network types, from _is_network_type_supported:
plugin_const.TYPE_LOCAL, TYPE_FLAT, TYPE_GENEVE, TYPE_VLAN. -/
def _is_network_type_supported (network_type : String) : Bool :=
  ["local", "flat", "geneve", "vlan"].contains network_type

/-- One entry of a network segment list, as read by
_validate_network_segments and bind_port. -/
structure NetworkSegment where
  id : String
  network_type : String
  segmentation_id : Option Int
  physical_network : Option String
  deriving Repr, DecidableEq

/-- Embedding of _validate_network_segments: walks the segments in order
and raises n_exc.InvalidInput (modelled as Except.error with the message)
at the first segment whose network type is unsupported. -/
def _validate_network_segments : List NetworkSegment → Except String Unit
  | [] => .ok ()
  | seg :: rest =>
    if ¬ _is_network_type_supported seg.network_type then
      .error ("Network type " ++ seg.network_type ++ " is not supported")
    else
      _validate_network_segments rest

/-- Embedding of create_network_precommit: it only validates the network
segments; it performs no write to the external store (the embedding
returns no commands). -/
def create_network_precommit (network_segments : List NetworkSegment) :
    Except String Unit :=
  _validate_network_segments network_segments

/-- Embedding of update_network_precommit: identical validation. -/
def update_network_precommit (network_segments : List NetworkSegment) :
    Except String Unit :=
  _validate_network_segments network_segments

/-- Host route of a subnet, fields destination and nexthop. -/
structure HostRoute where
  destination : String
  nexthop : String
  deriving Repr, DecidableEq

/-- Subnet fields used by the DHCP option synthesis code.  gateway_ip is
None (or empty) exactly when the Option is none; ip_version is 4 or 6. -/
structure Subnet where
  id : String
  cidr : String
  ip_version : Nat
  enable_dhcp : Bool
  gateway_ip : Option String
  dns_nameservers : List String
  host_routes : List HostRoute
  ipv6_address_mode : Option String
  deriving Repr, DecidableEq

/-- Python ", ".join for dns_nameservers. -/
def joinCommaSpace : List String → String
  | [] => ""
  | [s] => s
  | s :: rest => s ++ ", " ++ joinCommaSpace rest

/-- Body accumulated by the classless_static_route loop: each host route
appends "destination,nexthop, " to the string that started as "\x7b". -/
def csrBody (routes : List HostRoute) : String :=
  routes.foldl (fun acc r => acc ++ (r.destination ++ "," ++ r.nexthop ++ ", ")) ""

/-- Embedding of _get_ovn_dhcpv4_opts.  The configured default lease time,
the network mtu and the random server mac (drawn from cfg.CONF.base_mac
when no server_mac is supplied) are passed in as parameters; options is
the returned dict as an association list in insertion order. -/
def _get_ovn_dhcpv4_opts (default_lease_time : String) (network_mtu : Nat)
    (random_mac : String) (subnet : Subnet) (server_mac : Option String) :
    List (String × String) :=
  match subnet.gateway_ip with
  | none => []
  | some gw =>
    let options := [("server_id", gw), ("lease_time", default_lease_time),
                    ("mtu", toString network_mtu), ("router", gw)]
    let options := options ++ [("server_mac", server_mac.getD random_mac)]
    let options := options ++
      (if subnet.dns_nameservers ≠ [] then
        [("dns_server", "\x7b" ++ joinCommaSpace subnet.dns_nameservers ++ "\x7d")]
      else [])
    let classless_static_routes := "\x7b" ++ csrBody subnet.host_routes
    let options := options ++
      (if classless_static_routes ≠ "\x7b" then
        [("classless_static_route",
          classless_static_routes ++ "0.0.0.0/0," ++ gw ++ "\x7d")]
      else [])
    options

/-- Embedding of _get_ovn_dhcpv6_opts.  The random server id mac is a
parameter. -/
def _get_ovn_dhcpv6_opts (random_mac : String) (subnet : Subnet) :
    List (String × String) :=
  let dhcpv6_opts := [("server_id", random_mac)]
  let dhcpv6_opts := dhcpv6_opts ++
    (if subnet.dns_nameservers ≠ [] then
      [("dns_server", "\x7b" ++ joinCommaSpace subnet.dns_nameservers ++ "\x7d")]
    else [])
  let dhcpv6_opts := dhcpv6_opts ++
    (if subnet.ipv6_address_mode = some "dhcpv6-stateless" then
      [("dhcpv6_stateless", "true")]
    else [])
  dhcpv6_opts

/-- Result of get_ovn_dhcp_options: the dict with cidr, options and
external_ids keys. -/
structure DhcpOptions where
  cidr : String
  options : List (String × String)
  external_ids : List (String × String)
  deriving Repr, DecidableEq

/-- Embedding of get_ovn_dhcp_options. -/
def get_ovn_dhcp_options (default_lease_time : String) (network_mtu : Nat)
    (random_mac : String) (subnet : Subnet) (server_mac : Option String) :
    DhcpOptions :=
  let base : DhcpOptions :=
    { cidr := subnet.cidr, options := [],
      external_ids := [("subnet_id", subnet.id)] }
  if subnet.enable_dhcp then
    if subnet.ip_version = 4 then
      let v4 := _get_ovn_dhcpv4_opts default_lease_time network_mtu random_mac
        subnet server_mac
      { base with options := v4 }
    else
      { base with options := _get_ovn_dhcpv6_opts random_mac subnet }
  else
    base

/-- Port fields read by _is_port_provisioning_required and bind_port.
vnic_type is none when the binding:vnic_type key is absent (the code then
defaults it to portbindings.VNIC_NORMAL via port.get). -/
structure BindPort where
  id : String
  vnic_type : Option String
  status : String
  deriving Repr, DecidableEq

/-- Embedding of _is_port_provisioning_required.  chassis_exists stands
for the southbound store query self._sb_ovn.chassis_exists.  host is the
(possibly empty) binding host string; original_host is None on the
create path. -/
def _is_port_provisioning_required (chassis_exists : String → Bool)
    (port : BindPort) (host : String) (original_host : Option String) : Bool :=
  let vnic_type := port.vnic_type.getD VNIC_NORMAL
  if ¬ supported_vnic_types.contains vnic_type then
    false
  else if port.status = PORT_STATUS_ACTIVE then
    false
  else if host = "" then
    false
  else if some host = original_host then
    false
  else if ¬ chassis_exists host then
    false
  else
    true

/-- Chassis capability snapshot returned by
get_chassis_data_for_ml2_bind_port: datapath type, the comma separated
iface types string, and the physical network list.  bind_port receives
none when the lookup raises RuntimeError (unknown host). -/
structure ChassisData where
  datapath_type : String
  iface_types : String
  physnets : List String
  deriving Repr, DecidableEq

/-- Python "x not in chassis_physnets" for an optional physical network:
a None physical network is never a member of the list. -/
def optionMem (x : Option String) (l : List String) : Bool :=
  match x with
  | none => false
  | some s => l.contains s

/-- Embedding of bind_port.  The returned list records, in order, every
context.set_binding call the code makes: (segment id, vif type).  The
source loops over context.segments_to_bind; a flat/vlan segment whose
physical network is not among the chassis physnets is skipped (only
logged), any other segment triggers set_binding — note that the loop
body contains no break or return after set_binding, so the loop keeps
evaluating and binding the remaining segments. -/
def bind_port (get_chassis : String → Option ChassisData)
    (port : BindPort) (host : String)
    (segments_to_bind : List NetworkSegment) : List (String × String) :=
  let vnic_type := port.vnic_type.getD VNIC_NORMAL
  if ¬ supported_vnic_types.contains vnic_type then
    []
  else
    match get_chassis host with
    | none => []
    | some chassis =>
      let iface_types :=
        if chassis.iface_types = "" then []
        else chassis.iface_types.splitOn ","
      segments_to_bind.filterMap fun segment_to_bind =>
        if (segment_to_bind.network_type = "flat" ∨
            segment_to_bind.network_type = "vlan") ∧
           ¬ optionMem segment_to_bind.physical_network chassis.physnets then
          none
        else
          let vif_type :=
            if chassis.datapath_type = CHASSIS_DATAPATH_NETDEV ∧
               iface_types.contains CHASSIS_IFACE_DPDKVHOSTUSER then
              VIF_TYPE_VHOST_USER
            else
              VIF_TYPE_OVS
          some (segment_to_bind.id, vif_type)

/-- Value stored under a binding profile key. -/
inductive PVal
  | str (s : String)
  | int (n : Int)
  deriving Repr, DecidableEq

/-- Python type constraint attached to a binding profile key. -/
inductive PType
  | pstr
  | pint
  deriving Repr, DecidableEq

/-- Errors raised by validate_and_get_data_from_binding_profile.  All but
portNotFound model n_exc.InvalidInput with the corresponding message;
portNotFound models the PortNotFound exception propagated verbatim from
the plugin get_port lookup. -/
inductive BPError
  | allRequired (keys : List String)
  | tooManyParameters
  | invalidType (key : String)
  | tagOutOfRange (tag : Int)
  | portNotFound (name : String)
  deriving Repr, DecidableEq

/-- Modelled from the spec: ovn_const.OVN_PORT_BINDING_PROFILE_PARAMS is
defined in networking_ovn.common.constants, which is outside the given
source tree.  Per the spec, a profile may declare at most one
mutually-exclusive parameter set: parent_name (a string) with tag (an
integer) for sub-interfaces, or vtep-physical-switch with
vtep-logical-switch (both strings) for gateway ports. -/
def OVN_PORT_BINDING_PROFILE_PARAMS : List (List (String × Option PType)) :=
  [[("parent_name", some .pstr), ("tag", some .pint)],
   [("vtep-physical-switch", some .pstr), ("vtep-logical-switch", some .pstr)]]

/-- The inner key loop: param_dict[param_key] = profile[param_key] for
each key of the parameter set present in the profile (KeyError skipped). -/
def collectParams (profile : List (String × PVal)) (param_keys : List String) :
    List (String × PVal) :=
  param_keys.filterMap fun k => (profile.lookup k).map fun v => (k, v)

/-- The parameter-set loop of validate_and_get_data_from_binding_profile.
Returns ok none when the loop runs off the end without break (param_dict
is then empty in every reachable state), and ok (param_set, param_dict)
on break. -/
def bindingProfileLoop (profile : List (String × PVal)) :
    List (List (String × Option PType)) → List (String × PVal) →
    Except BPError (Option (List (String × Option PType) × List (String × PVal)))
  | [], _ => .ok none
  | param_set :: rest, param_dict =>
    let param_keys := param_set.map (·.1)
    let param_dict := param_dict ++ collectParams profile param_keys
    if param_dict.length = 0 then
      bindingProfileLoop profile rest param_dict
    else if param_dict.length ≠ param_keys.length then
      .error (.allRequired param_keys)
    else if profile.length ≠ param_keys.length then
      .error .tooManyParameters
    else
      .ok (some (param_set, param_dict))

/-- Python isinstance check of a profile value against its declared type. -/
def typeMatches (v : PVal) (t : PType) : Bool :=
  match v, t with
  | .str _, .pstr => true
  | .int _, .pint => true
  | _, _ => false

/-- The per-key type check loop over the matched parameter set.  A key
with a None type constraint is skipped.  A missing key cannot occur here
(the loop only breaks with a complete param_dict); it is mapped to the
same invalidType error. -/
def checkParamTypes (param_dict : List (String × PVal)) :
    List (String × Option PType) → Except BPError Unit
  | [] => .ok ()
  | (_, none) :: rest => checkParamTypes param_dict rest
  | (k, some t) :: rest =>
    match param_dict.lookup k with
    | some v =>
      if typeMatches v t then checkParamTypes param_dict rest
      else .error (.invalidType k)
    | none => .error (.invalidType k)

/-- The trailing tag range check: int(param_dict[tag]) must lie in
[0, 4095].  A non-int tag cannot occur here (checkParamTypes ran first). -/
def checkTagRange (param_set : List (String × Option PType))
    (param_dict : List (String × PVal)) :
    Except BPError (List (String × PVal)) :=
  if (param_set.map (·.1)).contains "tag" then
    match param_dict.lookup "tag" with
    | some (.int tag) =>
      if tag < 0 ∨ tag > 4095 then .error (.tagOutOfRange tag)
      else .ok param_dict
    | _ => .error (.invalidType "tag")
  else
    .ok param_dict

/-- Embedding of validate_and_get_data_from_binding_profile.
get_port_exists models the plugin get_port lookup of parent_name (false
means the lookup raises PortNotFound, propagated verbatim).  The binding
profile is none when the key is absent or not set.  A non-str
parent_name cannot reach the lookup (checkParamTypes ran first). -/
def validate_and_get_data_from_binding_profile
    (get_port_exists : String → Bool)
    (binding_profile : Option (List (String × PVal))) :
    Except BPError (List (String × PVal)) :=
  match binding_profile with
  | none => .ok []
  | some profile =>
    match bindingProfileLoop profile OVN_PORT_BINDING_PROFILE_PARAMS [] with
    | .error e => .error e
    | .ok none => .ok []
    | .ok (some (param_set, param_dict)) =>
      match checkParamTypes param_dict param_set with
      | .error e => .error e
      | .ok _ =>
        if (param_set.map (·.1)).contains "parent_name" then
          match param_dict.lookup "parent_name" with
          | some (.str p) =>
            if ¬ get_port_exists p then .error (.portNotFound p)
            else checkTagRange param_set param_dict
          | _ => .error (.invalidType "parent_name")
        else
          checkTagRange param_set param_dict

/-- Constant ovn_const.DHCPV6_STATELESS_OPT, the option key written as
"dhcpv6_stateless" by _get_ovn_dhcpv6_opts. -/
def DHCPV6_STATELESS_OPT : String := "dhcpv6_stateless"

/-- One fixed IP entry of a port.  ip_version stands for
netaddr.IPAddress(ip_address).version, the parsing being abstracted. -/
structure FixedIp where
  subnet_id : String
  ip_address : String
  ip_version : Nat
  deriving Repr, DecidableEq

/-- A DHCP_Options row as returned by the northbound store lookup
get_subnets_dhcp_options. -/
structure OvnDhcpRow where
  uuid : String
  cidr : String
  options : List (String × String)
  external_ids : List (String × String)
  deriving Repr, DecidableEq

/-- Port fields read by get_port_dhcp_options. -/
structure DhcpPort where
  id : String
  fixed_ips : List FixedIp
  deriving Repr, DecidableEq

/-- Embedding of _get_subnet_dhcp_options_for_port: collect the subnet
ids of the fixed IPs of the requested IP version, look their DHCP option
rows up in the store, and return the first row — except that for IPv6 a
non-stateless row is preferred when one exists. -/
def _get_subnet_dhcp_options_for_port
    (get_subnets_dhcp_options : List String → List OvnDhcpRow)
    (port : DhcpPort) (ip_version : Nat) : Option OvnDhcpRow :=
  let subnets :=
    (port.fixed_ips.filter (fun fixed_ip => fixed_ip.ip_version = ip_version)).map
      (·.subnet_id)
  let get_opts := get_subnets_dhcp_options subnets
  match get_opts with
  | [] => none
  | first :: _ =>
    if ip_version = 6 then
      match get_opts.find?
          (fun opts => opts.options.lookup DHCPV6_STATELESS_OPT ≠ some "true") with
      | some opts => some opts
      | none => some first
    else
      some first

/-- Python dict.update: keys of d1 keep their position, values overridden
by d2 where present; keys only in d2 are appended. -/
def dictUpdate (d1 d2 : List (String × String)) : List (String × String) :=
  (d1.map fun kv => (kv.1, (d2.lookup kv.1).getD kv.2)) ++
    d2.filter (fun kv => (d1.lookup kv.1).isNone)

/-- Argument record of the pending AddDHCPOptionsCommand built by
get_port_dhcp_options for a port with extra DHCP options. -/
structure AddDhcpOptionsCmd where
  subnet_id : String
  port_id : String
  cidr : String
  options : List (String × String)
  external_ids : List (String × String)
  deriving Repr, DecidableEq

/-- Return value of get_port_dhcp_options: None, an existing subnet row,
or a dict holding only the pending creation command. -/
inductive PortDhcpResult
  | nothing
  | row (r : OvnDhcpRow)
  | cmd (c : AddDhcpOptionsCmd)
  deriving Repr, DecidableEq

/-- Embedding of get_port_dhcp_options.  get_lsp_dhcp_opts models
utils.get_lsp_dhcp_opts (outside the given source tree): the flag says
whether DHCP is disabled for the port at that IP version, the list holds
the extra per-port DHCP options.  get_subnets_dhcp_options models the
northbound store lookup.  A missing subnet_id external id of a store row
is read as the empty string. -/
def get_port_dhcp_options
    (get_lsp_dhcp_opts : DhcpPort → Nat → Bool × List (String × String))
    (get_subnets_dhcp_options : List String → List OvnDhcpRow)
    (port : DhcpPort) (ip_version : Nat) : PortDhcpResult :=
  let res := get_lsp_dhcp_opts port ip_version
  let lsp_dhcp_disabled := res.1
  let lsp_dhcp_opts := res.2
  if lsp_dhcp_disabled then
    .nothing
  else
    match _get_subnet_dhcp_options_for_port get_subnets_dhcp_options
        port ip_version with
    | none => .nothing
    | some subnet_dhcp_options =>
      if lsp_dhcp_opts.isEmpty then
        .row subnet_dhcp_options
      else
        let options := dictUpdate subnet_dhcp_options.options lsp_dhcp_opts
        let external_ids := dictUpdate subnet_dhcp_options.external_ids
          [("port_id", port.id)]
        let subnet_id := (external_ids.lookup "subnet_id").getD ""
        .cmd { subnet_id := subnet_id, port_id := port.id,
               cidr := subnet_dhcp_options.cidr,
               options := options, external_ids := external_ids }

/-- Modelled from the spec: utils.ovn_name (outside the given source
tree) derives the deterministic logical switch name from the network id. -/
def ovn_name (network_id : String) : String :=
  "neutron-" ++ network_id

/-- Modelled from the spec: utils.ovn_addrset_name (outside the given
source tree) names the address set of a security group deterministically
from the group id and the IP version. -/
def ovn_addrset_name (sg_id ip_version : String) : String :=
  "as_" ++ ip_version ++ "_" ++ sg_id

/-- Keys of the dict returned by ovn_acl.acl_port_ips, iterated by the
address set loops: one entry per IP version. -/
def ip_versions : List String := ["ip4", "ip6"]

/-- Port fields read by create_port_in_ovn and _update_port_in_ovn.
Security group membership and per-version address strings are produced
by the collaborator helpers passed in as functions. -/
structure OvnPort where
  id : String
  name : String
  network_id : String
  admin_state_up : Bool
  device_owner : String
  fixed_ips : List FixedIp
  deriving Repr, DecidableEq

/-- Commands queued on the northbound transaction.  Only the fields the
claims depend on are carried; an updateAddressSet with a none
addrs_add or addrs_remove models passing None for that argument. -/
inductive OvnCmd
  | addDhcpOptions (c : AddDhcpOptionsCmd)
  | createLSwitchPort (lport_name : String) (lswitch_name : String)
  | setLSwitchPort (lport_name : String) (if_exists : Bool)
  | addAcl (entry : String)
  | updateAcls (port_id : String)
  | updateAddressSet (name : String) (addrs_add : Option (List String))
      (addrs_remove : Option (List String)) (if_exists : Bool)
  deriving Repr, DecidableEq

/-- The DHCP slice of OvnPortInfo as consumed by the port create and
update transactions. -/
structure PortInfo where
  dhcpv4_options : PortDhcpResult
  dhcpv6_options : PortDhcpResult
  deriving Repr, DecidableEq

/-- The txn.add performed while resolving one dhcp options slot: a
pending cmd is added to the transaction, an existing row or an absent
row adds nothing (the row uuid or [] is referenced instead). -/
def dhcpCmds : PortDhcpResult → List OvnCmd
  | .cmd c => [.addDhcpOptions c]
  | _ => []

/-- Embedding of create_port_in_ovn, as the ordered list of commands the
single northbound transaction receives.  get_lsp_security_groups models
utils.get_lsp_security_groups(port) and acl_port_ips models
ovn_acl.acl_port_ips(port) (both outside the given source tree);
acls_new stands for the opaque ACL dicts from ovn_acl.add_acls.  Note
the address set updates are issued with if_exists=False. -/
def create_port_in_ovn
    (get_lsp_security_groups : OvnPort → List String)
    (acl_port_ips : OvnPort → String → List String)
    (acls_new : List String)
    (port : OvnPort) (info : PortInfo) : List OvnCmd :=
  let sg_ids := get_lsp_security_groups port
  let addr_set_cmds :=
    if port.fixed_ips ≠ [] ∧ sg_ids ≠ [] then
      let addresses := acl_port_ips port
      sg_ids.flatMap fun sg_id =>
        ip_versions.filterMap fun ip_version =>
          if addresses ip_version ≠ [] then
            some (.updateAddressSet (ovn_addrset_name sg_id ip_version)
              (some (addresses ip_version)) none false)
          else
            none
    else []
  dhcpCmds info.dhcpv4_options ++ dhcpCmds info.dhcpv6_options ++
    [.createLSwitchPort port.id (ovn_name port.network_id)] ++
    acls_new.map .addAcl ++
    addr_set_cmds

/-- The "add current addresses to attached security groups" loop of
_update_port_in_ovn. -/
def attachedAddrSetCmds (addresses : String → List String)
    (sg_ids : List String) : List OvnCmd :=
  sg_ids.flatMap fun sg_id =>
    ip_versions.filterMap fun ip_version =>
      if addresses ip_version ≠ [] then
        some (.updateAddressSet (ovn_addrset_name sg_id ip_version)
          (some (addresses ip_version)) none true)
      else
        none

/-- The "remove old addresses from detached security groups" loop of
_update_port_in_ovn. -/
def detachedAddrSetCmds (addresses_old : String → List String)
    (sg_ids : List String) : List OvnCmd :=
  sg_ids.flatMap fun sg_id =>
    ip_versions.filterMap fun ip_version =>
      if addresses_old ip_version ≠ [] then
        some (.updateAddressSet (ovn_addrset_name sg_id ip_version)
          none (some (addresses_old ip_version)) true)
      else
        none

/-- The unchanged-group loop of _update_port_in_ovn: per IP version the
added addresses are new minus old and the removed ones old minus new
(Python set difference, passed as None when empty), and a command is
issued only when one of the two deltas is non-empty. -/
def unchangedAddrSetCmds (addresses addresses_old : String → List String)
    (sg_ids : List String) : List OvnCmd :=
  sg_ids.flatMap fun sg_id =>
    ip_versions.filterMap fun ip_version =>
      let addr_add := (addresses ip_version).filter
        (fun a => ¬ (addresses_old ip_version).contains a)
      let addr_remove := (addresses_old ip_version).filter
        (fun a => ¬ (addresses ip_version).contains a)
      if addr_add ≠ [] ∨ addr_remove ≠ [] then
        some (.updateAddressSet (ovn_addrset_name sg_id ip_version)
          (if addr_add = [] then none else some addr_add)
          (if addr_remove = [] then none else some addr_remove) true)
      else
        none

/-- Embedding of _update_port_in_ovn, as the ordered list of commands the
single northbound transaction receives.  Python set(...) over the
security group ids is modelled by dedup, set difference and intersection
by membership filters; the column payload of set_lswitch_port is
abstracted to the port name and the if_exists=False flag the claims rely
on. -/
def _update_port_in_ovn
    (get_lsp_security_groups : OvnPort → List String)
    (acl_port_ips : OvnPort → String → List String)
    (original_port port : OvnPort) (info : PortInfo) : List OvnCmd :=
  let old_sg_ids := (get_lsp_security_groups original_port).dedup
  let new_sg_ids := (get_lsp_security_groups port).dedup
  let detached_sg_ids := old_sg_ids.filter (fun s => ¬ new_sg_ids.contains s)
  let attached_sg_ids := new_sg_ids.filter (fun s => ¬ old_sg_ids.contains s)
  let is_fixed_ips_updated : Prop := original_port.fixed_ips ≠ port.fixed_ips
  let acl_cmds :=
    if detached_sg_ids ≠ [] ∨ attached_sg_ids ≠ [] ∨ is_fixed_ips_updated then
      [OvnCmd.updateAcls port.id]
    else []
  let addr_set_cmds :=
    if port.fixed_ips.length ≠ 0 ∨ original_port.fixed_ips.length ≠ 0 then
      let addresses := acl_port_ips port
      let addresses_old := acl_port_ips original_port
      attachedAddrSetCmds addresses attached_sg_ids ++
      detachedAddrSetCmds addresses_old detached_sg_ids ++
      (if is_fixed_ips_updated then
        let unchanged_sg_ids := new_sg_ids.filter (fun s => old_sg_ids.contains s)
        unchangedAddrSetCmds addresses addresses_old unchanged_sg_ids
      else [])
    else []
  dhcpCmds info.dhcpv4_options ++ dhcpCmds info.dhcpv6_options ++
    [.setLSwitchPort port.id false] ++
    acl_cmds ++
    addr_set_cmds

/-- Northbound store state observed by the transaction executor: the
names of the existing address sets and logical switch ports. -/
structure NbStore where
  address_sets : List String
  lswitch_ports : List String
  deriving Repr, DecidableEq

/-- Effect of one command on the store.  update_address_set on an absent
address set fails unless if_exists is set; other commands here cannot
fail. -/
def applyCmd (st : NbStore) : OvnCmd → Except String NbStore
  | .updateAddressSet name _ _ if_exists =>
    if st.address_sets.contains name then .ok st
    else if if_exists then .ok st
    else .error name
  | .createLSwitchPort lport_name _ =>
    .ok { st with lswitch_ports := lport_name :: st.lswitch_ports }
  | _ => .ok st

/-- The atomic batched transaction: commands apply in order, the first
failing command aborts the whole batch and no partial state is
observable (error carries no store). -/
def runTxn (st : NbStore) : List OvnCmd → Except String NbStore
  | [] => .ok st
  | c :: rest =>
    match applyCmd st c with
    | .error e => .error e
    | .ok st2 => runTxn st2 rest

/-- Exceptions surfacing from the plugin calls inside
set_port_status_down.  portNotFound models n_exc.PortNotFound,
dbReferenceError models os_db_exc.DBReferenceError, other is any other
exception type. -/
inductive PluginError
  | portNotFound
  | dbReferenceError
  | other (msg : String)
  deriving Repr, DecidableEq

/-- The except clause of set_port_status_down catches exactly
(os_db_exc.DBReferenceError, n_exc.PortNotFound). -/
def isStatusDownCaught : PluginError → Bool
  | .portNotFound => true
  | .dbReferenceError => true
  | .other _ => false

/-- Side effects performed by set_port_status_down, in order. -/
inductive StatusDownAction
  | insertProvisioningBlock (port_id : String)
  | updatePortStatus (port_id : String) (status : String)
  deriving Repr, DecidableEq

/-- The port dict returned by the plugin get_port lookup. -/
structure PluginPort where
  id : String
  deriving Repr, DecidableEq

/-- Embedding of set_port_status_down.  get_port and update_port_status
model the plugin calls; the result is the list of side effects performed
(ok) or the propagated exception (error).  The provisioning block is
inserted before the status update; DBReferenceError and PortNotFound
from either plugin call are caught and only logged. -/
def set_port_status_down
    (get_port : String → Except PluginError PluginPort)
    (update_port_status : String → String → Except PluginError Unit)
    (port_id : String) : Except PluginError (List StatusDownAction) :=
  match get_port port_id with
  | .error e => if isStatusDownCaught e then .ok [] else .error e
  | .ok port =>
    match update_port_status port.id PORT_STATUS_DOWN with
    | .ok _ =>
      .ok [.insertProvisioningBlock port.id,
           .updatePortStatus port.id PORT_STATUS_DOWN]
    | .error e =>
      if isStatusDownCaught e then .ok [.insertProvisioningBlock port.id]
      else .error e

/-- Concrete DHCP options row fixture used by witnesses. -/
def exRow : OvnDhcpRow :=
  { uuid := "u1", cidr := "10.0.0.0/24",
    options := [("server_id", "10.0.0.1")],
    external_ids := [("subnet_id", "s1")] }

/-- Concrete port fixture used by witnesses. -/
def exPortA : DhcpPort :=
  { id := "p1",
    fixed_ips := [{ subnet_id := "s1", ip_address := "10.0.0.5",
                    ip_version := 4 }] }

/-- Second concrete port fixture on the same subnet. -/
def exPortB : DhcpPort :=
  { id := "p2",
    fixed_ips := [{ subnet_id := "s1", ip_address := "10.0.0.6",
                    ip_version := 4 }] }

/-- Concrete port fixture (pre-update state) used by witnesses. -/
def exOvnPortOld : OvnPort :=
  { id := "p1", name := "port1", network_id := "net1",
    admin_state_up := true, device_owner := "",
    fixed_ips := [{ subnet_id := "s1", ip_address := "10.0.0.5",
                    ip_version := 4 }] }

/-- Concrete port fixture (post-update state, new fixed IP) used by
witnesses. -/
def exOvnPortNew : OvnPort :=
  { id := "p1", name := "port1", network_id := "net1",
    admin_state_up := true, device_owner := "",
    fixed_ips := [{ subnet_id := "s1", ip_address := "10.0.0.6",
                    ip_version := 4 }] }

/-- Address strings helper fixture: the acl_port_ips collaborator
rendered over a port fixture, ip4 only. -/
def exAclPortIps (p : OvnPort) (ip_version : String) : List String :=
  if ip_version = "ip4" then
    p.fixed_ips.map (fun ip => "fa:16:3e:aa:bb:cc " ++ ip.ip_address)
  else
    []

/-! Theorems -/

/-- Helper: _validate_network_segments succeeds exactly when every
segment has a supported network type. -/
theorem validate_network_segments_ok_iff (segs : List NetworkSegment) :
    _validate_network_segments segs = .ok () ↔
      ∀ seg ∈ segs, _is_network_type_supported seg.network_type = true := by
  induction segs with
  | nil => simp [_validate_network_segments]
  | cons s rest ih =>
    by_cases h : _is_network_type_supported s.network_type
    · simp [_validate_network_segments, h, ih]
    · simp [_validate_network_segments, h]

/-- C5: create_network_precommit (and update_network_precommit) succeeds
for every network all of whose segments have network type in
local, flat, geneve, vlan, and raises an InvalidInput validation error —
performing no write to the external store (the precommit embedding emits
no store commands) — whenever any segment network type is outside that
set. -/
theorem create_network_precommit_validates_segment_types
    (segs : List NetworkSegment) :
    (create_network_precommit segs = .ok () ↔
      ∀ seg ∈ segs,
        seg.network_type ∈ (["local", "flat", "geneve", "vlan"] : List String)) ∧
    (update_network_precommit segs = .ok () ↔
      ∀ seg ∈ segs,
        seg.network_type ∈ (["local", "flat", "geneve", "vlan"] : List String)) ∧
    ((∃ seg ∈ segs,
        seg.network_type ∉ (["local", "flat", "geneve", "vlan"] : List String)) →
      ∃ msg, create_network_precommit segs = .error msg) := by
  have hsupp : ∀ t : String, _is_network_type_supported t = true ↔
      t ∈ (["local", "flat", "geneve", "vlan"] : List String) := by
    intro t
    simp [_is_network_type_supported]
  have hmain : create_network_precommit segs = .ok () ↔
      ∀ seg ∈ segs,
        seg.network_type ∈ (["local", "flat", "geneve", "vlan"] : List String) := by
    rw [create_network_precommit, validate_network_segments_ok_iff]
    constructor
    · intro h seg hseg
      exact (hsupp _).mp (h seg hseg)
    · intro h seg hseg
      exact (hsupp _).mpr (h seg hseg)
  refine ⟨hmain, hmain, ?_⟩
  intro h
  rcases h with ⟨seg, hseg, hbad⟩
  cases hres : create_network_precommit segs with
  | error msg => exact ⟨msg, rfl⟩
  | ok u =>
    cases u
    exact absurd (hmain.mp hres seg hseg) hbad

/-- Witness for create_network_precommit_validates_segment_types: a
geneve-only segment list passes, a vxlan segment yields an error. -/
theorem create_network_precommit_validates_segment_types_witness :
    create_network_precommit
      [{ id := "seg1", network_type := "geneve", segmentation_id := some 100,
         physical_network := none }] = .ok () ∧
    ∃ msg, create_network_precommit
      [{ id := "seg2", network_type := "vxlan", segmentation_id := some 100,
         physical_network := none }] = .error msg :=
  ⟨(create_network_precommit_validates_segment_types
      [{ id := "seg1", network_type := "geneve", segmentation_id := some 100,
         physical_network := none }]).1.mpr (by decide),
   (create_network_precommit_validates_segment_types
      [{ id := "seg2", network_type := "vxlan", segmentation_id := some 100,
         physical_network := none }]).2.2
      ⟨{ id := "seg2", network_type := "vxlan", segmentation_id := some 100,
         physical_network := none }, by decide, by decide⟩⟩

/-- C3: _is_port_provisioning_required returns True exactly when the
vnic type is supported, the port status is not ACTIVE, the host is
non-empty, the host differs from the original host, and the chassis for
the host exists in the southbound store. -/
theorem is_port_provisioning_required_iff
    (chassis_exists : String → Bool) (port : BindPort) (host : String)
    (original_host : Option String) :
    _is_port_provisioning_required chassis_exists port host original_host = true ↔
      (supported_vnic_types.contains (port.vnic_type.getD VNIC_NORMAL) = true ∧
       port.status ≠ PORT_STATUS_ACTIVE ∧
       host ≠ "" ∧
       some host ≠ original_host ∧
       chassis_exists host = true) := by
  unfold _is_port_provisioning_required
  split_ifs <;> simp_all

/-- Witness for is_port_provisioning_required_iff: a normal, DOWN port
with a fresh host whose chassis exists requires a provisioning block. -/
theorem is_port_provisioning_required_iff_witness :
    _is_port_provisioning_required (fun _ => true)
      { id := "p1", vnic_type := none, status := "DOWN" } "host1" none =
      true :=
  (is_port_provisioning_required_iff (fun _ => true)
    { id := "p1", vnic_type := none, status := "DOWN" } "host1" none).mpr
    ⟨by decide, by decide, by decide, by decide, rfl⟩

/-- C1 evaluation at the failing input: with two eligible geneve
segments the loop in bind_port calls context.set_binding for both
segments (the loop body has no break after set_binding), so the binding
decision is not stopped at the first eligible segment — the recorded
call list has both segments, contradicting the claim that no further
segments are evaluated or bound after the first eligible one. -/
theorem bind_port_binds_all_eligible_segments :
    bind_port
      (fun _ => some { datapath_type := "system", iface_types := "",
                       physnets := ["physnet1"] })
      { id := "port1", vnic_type := none, status := "DOWN" }
      "host1"
      [{ id := "seg1", network_type := "geneve", segmentation_id := some 10,
         physical_network := none },
       { id := "seg2", network_type := "geneve", segmentation_id := some 11,
         physical_network := none }] =
      [("seg1", VIF_TYPE_OVS), ("seg2", VIF_TYPE_OVS)] := by
  rfl

/-- C6 counterexample: the claim says a profile containing keys from
more than one mutually-exclusive parameter set — e.g. parent_name
together with vtep-physical-switch — is rejected as too many
parameters; the code instead rejects this profile with the
"parent_name, tag are all required" error, because the first parameter
set matches only partially and that check fires before any
cross-set counting. -/
theorem binding_profile_mixed_sets_error_is_all_required :
    validate_and_get_data_from_binding_profile (fun _ => true)
      (some [("parent_name", .str "p1"), ("vtep-physical-switch", .str "sw1")]) =
      .error (.allRequired ["parent_name", "tag"]) ∧
    (Except.error (BPError.allRequired ["parent_name", "tag"]) :
        Except BPError (List (String × PVal))) ≠
      .error .tooManyParameters := by
  constructor
  · rfl
  · intro h
    exact BPError.noConfusion (Except.error.inj h)

/-- C6 amended: validate_and_get_data_from_binding_profile rejects a
declared tag outside [0, 4095] (tag 4096 in particular) and accepts tag
4095 in an otherwise valid parent_name/tag profile whose parent_name
resolves to an existing port; a profile declaring a complete parameter
set together with keys of another set is rejected as too many
parameters, while a profile mixing incomplete parts of several sets —
such as parent_name together with vtep-physical-switch alone — is
rejected with the "are all required" incompleteness error, as is a
profile containing only part of a single parameter set. -/
theorem validate_binding_profile_amended :
    (∀ (pe : String → Bool) (p : String) (t : Int), pe p = true →
      (t < 0 ∨ 4095 < t) →
      validate_and_get_data_from_binding_profile pe
        (some [("parent_name", .str p), ("tag", .int t)]) =
        .error (.tagOutOfRange t)) ∧
    (∀ (pe : String → Bool) (p : String) (t : Int), pe p = true →
      0 ≤ t → t ≤ 4095 →
      validate_and_get_data_from_binding_profile pe
        (some [("parent_name", .str p), ("tag", .int t)]) =
        .ok [("parent_name", .str p), ("tag", .int t)]) ∧
    (∀ (pe : String → Bool) (p : String) (t : Int) (s : String),
      validate_and_get_data_from_binding_profile pe
        (some [("parent_name", .str p), ("tag", .int t),
               ("vtep-physical-switch", .str s)]) =
        .error .tooManyParameters) ∧
    (∀ (pe : String → Bool) (p s : String),
      validate_and_get_data_from_binding_profile pe
        (some [("parent_name", .str p), ("vtep-physical-switch", .str s)]) =
        .error (.allRequired ["parent_name", "tag"])) ∧
    (∀ (pe : String → Bool) (t : Int),
      validate_and_get_data_from_binding_profile pe (some [("tag", .int t)]) =
        .error (.allRequired ["parent_name", "tag"])) ∧
    (∀ (pe : String → Bool) (s : String),
      validate_and_get_data_from_binding_profile pe
        (some [("vtep-physical-switch", .str s)]) =
        .error (.allRequired ["vtep-physical-switch", "vtep-logical-switch"])) := by
  refine ⟨?_, ?_, ?_, ?_, ?_, ?_⟩
  · intro pe p t hpe hrange
    simp [validate_and_get_data_from_binding_profile, bindingProfileLoop,
          collectParams, OVN_PORT_BINDING_PROFILE_PARAMS, checkParamTypes,
          typeMatches, checkTagRange, List.filterMap_cons, List.lookup,
          hpe, hrange]
  · intro pe p t hpe h0 h1
    have hnot : ¬ (t < 0 ∨ 4095 < t) := by omega
    simp [validate_and_get_data_from_binding_profile, bindingProfileLoop,
          collectParams, OVN_PORT_BINDING_PROFILE_PARAMS, checkParamTypes,
          typeMatches, checkTagRange, List.filterMap_cons, List.lookup,
          hpe, hnot]
  · intro pe p t s
    rfl
  · intro pe p s
    rfl
  · intro pe t
    rfl
  · intro pe s
    rfl

/-- Witness for validate_binding_profile_amended at concrete inputs: tag
4096 with an existing parent is rejected out of range, tag 4095 is
accepted. -/
theorem validate_binding_profile_amended_witness :
    validate_and_get_data_from_binding_profile (fun _ => true)
      (some [("parent_name", .str "p1"), ("tag", .int 4096)]) =
      .error (.tagOutOfRange 4096) ∧
    validate_and_get_data_from_binding_profile (fun _ => true)
      (some [("parent_name", .str "p1"), ("tag", .int 4095)]) =
      .ok [("parent_name", .str "p1"), ("tag", .int 4095)] :=
  ⟨validate_binding_profile_amended.1 (fun _ => true) "p1" 4096 rfl
      (by omega),
   validate_binding_profile_amended.2.1 (fun _ => true) "p1" 4095 rfl
      (by omega) (by omega)⟩

/-- Rendering of one host route inside the classless_static_route
option. -/
def renderRoute (r : HostRoute) : String :=
  r.destination ++ "," ++ r.nexthop ++ ", "

/-- Helper: the route accumulation loop concatenates the renderings of
all routes after the initial accumulator. -/
theorem string_foldl_append (l : List String) (a : String) :
    List.foldl (fun r s => r ++ s) a l =
      a ++ List.foldl (fun r s => r ++ s) "" l := by
  induction l generalizing a with
  | nil => simp
  | cons b t ih =>
    simp only [List.foldl_cons]
    rw [ih (a ++ b), ih ("" ++ b), String.empty_append, String.append_assoc]

/-- Helper: String.join splits off its head. -/
theorem string_join_cons (a : String) (l : List String) :
    String.join (a :: l) = a ++ String.join l := by
  unfold String.join
  simp only [List.foldl_cons, String.empty_append]
  exact string_foldl_append l a

theorem csr_foldl_join (rs : List HostRoute) (acc : String) :
    List.foldl (fun a r => a ++ (r.destination ++ "," ++ r.nexthop ++ ", "))
      acc rs = acc ++ String.join (rs.map renderRoute) := by
  induction rs generalizing acc with
  | nil => simp [String.join]
  | cons r rest ih =>
    simp only [List.foldl_cons, List.map_cons]
    rw [ih, string_join_cons, renderRoute, String.append_assoc]

/-- Helper: csrBody is the concatenation of the route renderings. -/
theorem csrBody_eq_join (rs : List HostRoute) :
    csrBody rs = String.join (rs.map renderRoute) := by
  unfold csrBody
  simpa using csr_foldl_join rs ""

/-- Helper: the route accumulation loop never shrinks the accumulator. -/
theorem csr_foldl_length_le (rs : List HostRoute) (acc : String) :
    acc.length ≤
      (List.foldl (fun a r => a ++ (r.destination ++ "," ++ r.nexthop ++ ", "))
        acc rs).length := by
  induction rs generalizing acc with
  | nil => simp
  | cons r rest ih =>
    simp only [List.foldl_cons]
    refine le_trans ?_ (ih (acc ++ (r.destination ++ "," ++ r.nexthop ++ ", ")))
    simp [String.length_append]

/-- Helper: with at least one host route the accumulated option string
is at least three characters long. -/
theorem csrBody_cons_length (r : HostRoute) (rs : List HostRoute) :
    3 ≤ (csrBody (r :: rs)).length := by
  unfold csrBody
  simp only [List.foldl_cons]
  have hstep : 3 ≤ ("" ++ (r.destination ++ "," ++ r.nexthop ++ ", ")).length := by
    simp only [String.length_append]
    have h1 : ("," : String).length = 1 := rfl
    have h2 : (", " : String).length = 2 := rfl
    have h0 : ("" : String).length = 0 := rfl
    omega
  exact le_trans hstep (csr_foldl_length_le rs _)

/-- Helper: with at least one host route the accumulated string differs
from the bare opening brace, so the option is emitted. -/
theorem csr_cons_ne_brace (r : HostRoute) (rs : List HostRoute) :
    "\x7b" ++ csrBody (r :: rs) ≠ "\x7b" := by
  intro h
  have hlen := congrArg String.length h
  rw [String.length_append] at hlen
  have h3 := csrBody_cons_length r rs
  have h1 : ("\x7b" : String).length = 1 := rfl
  rw [h1] at hlen
  omega

/-- C7: for an IPv4 subnet with a gateway, _get_ovn_dhcpv4_opts emits no
classless_static_route option when the subnet has no host routes; with
host routes it emits the option whose value is the brace-wrapped
concatenation of each "destination,nexthop, " rendering followed by the
default route 0.0.0.0/0 via the gateway.  Instantiated at the spec
example (host route 192.168.50.0/24 via 192.168.1.1, gateway
192.168.1.1) in the witness, this value is exactly
"\x7b192.168.50.0/24,192.168.1.1, 0.0.0.0/0,192.168.1.1\x7d". -/
theorem dhcpv4_classless_static_route
    (default_lease_time : String) (network_mtu : Nat) (random_mac : String)
    (subnet : Subnet) (server_mac : Option String) (gw : String)
    (hgw : subnet.gateway_ip = some gw) :
    (subnet.host_routes = [] →
      (_get_ovn_dhcpv4_opts default_lease_time network_mtu random_mac subnet
        server_mac).lookup "classless_static_route" = none) ∧
    (∀ r rs, subnet.host_routes = r :: rs →
      (_get_ovn_dhcpv4_opts default_lease_time network_mtu random_mac subnet
        server_mac).lookup "classless_static_route" =
        some ("\x7b" ++ String.join ((r :: rs).map renderRoute) ++
          "0.0.0.0/0," ++ gw ++ "\x7d")) := by
  unfold _get_ovn_dhcpv4_opts
  rw [hgw]
  constructor
  · intro hroutes
    rw [hroutes]
    have hempty : "\x7b" ++ csrBody [] = "\x7b" := by
      rw [csrBody]
      simp
    by_cases hdns : subnet.dns_nameservers = []
    · simp [hempty, hdns, List.lookup]
    · simp [hempty, hdns, List.lookup]
  · intro r rs hroutes
    rw [hroutes]
    have hne : "\x7b" ++ String.join (renderRoute r :: rs.map renderRoute) ≠
        "\x7b" := by
      rw [← List.map_cons, ← csrBody_eq_join]
      exact csr_cons_ne_brace r rs
    by_cases hdns : subnet.dns_nameservers = []
    · simp [csrBody_eq_join, hne, hdns, List.lookup]
    · simp [csrBody_eq_join, hne, hdns, List.lookup]

/-- Witness for dhcpv4_classless_static_route: the spec example subnet
with host route 192.168.50.0/24 via 192.168.1.1 and gateway 192.168.1.1
yields exactly the option string
"\x7b192.168.50.0/24,192.168.1.1, 0.0.0.0/0,192.168.1.1\x7d". -/
theorem dhcpv4_classless_static_route_witness :
    (_get_ovn_dhcpv4_opts "43200" 1442 "fa:16:3e:01:02:03"
      { id := "subnet1", cidr := "192.168.1.0/24", ip_version := 4,
        enable_dhcp := true, gateway_ip := some "192.168.1.1",
        dns_nameservers := [],
        host_routes := [{ destination := "192.168.50.0/24",
                          nexthop := "192.168.1.1" }],
        ipv6_address_mode := none }
      none).lookup "classless_static_route" =
      some "\x7b192.168.50.0/24,192.168.1.1, 0.0.0.0/0,192.168.1.1\x7d" := by
  have h := (dhcpv4_classless_static_route "43200" 1442 "fa:16:3e:01:02:03"
    { id := "subnet1", cidr := "192.168.1.0/24", ip_version := 4,
      enable_dhcp := true, gateway_ip := some "192.168.1.1",
      dns_nameservers := [],
      host_routes := [{ destination := "192.168.50.0/24",
                        nexthop := "192.168.1.1" }],
      ipv6_address_mode := none }
    none "192.168.1.1" rfl).2
    { destination := "192.168.50.0/24", nexthop := "192.168.1.1" } [] rfl
  rw [h]
  rfl

/-- C10: for an IPv4 subnet with DHCP enabled but no gateway,
get_ovn_dhcp_options returns an empty options map: no server_id,
server_mac, lease_time, mtu, router, dns_server or
classless_static_route option is present. -/
theorem get_ovn_dhcp_options_no_gateway
    (default_lease_time : String) (network_mtu : Nat) (random_mac : String)
    (subnet : Subnet) (server_mac : Option String)
    (h4 : subnet.ip_version = 4) (hgw : subnet.gateway_ip = none)
    (hdhcp : subnet.enable_dhcp = true) :
    (get_ovn_dhcp_options default_lease_time network_mtu random_mac subnet
      server_mac).options = [] ∧
    ∀ key, ((get_ovn_dhcp_options default_lease_time network_mtu random_mac
      subnet server_mac).options).lookup key = none := by
  have hopts : _get_ovn_dhcpv4_opts default_lease_time network_mtu random_mac
      subnet server_mac = [] := by
    unfold _get_ovn_dhcpv4_opts
    rw [hgw]
  have hmain : (get_ovn_dhcp_options default_lease_time network_mtu random_mac
      subnet server_mac).options = [] := by
    simp [get_ovn_dhcp_options, hdhcp, h4, hopts]
  exact ⟨hmain, fun key => by rw [hmain]; rfl⟩

/-- Witness for get_ovn_dhcp_options_no_gateway at a concrete
DHCP-enabled IPv4 subnet without a gateway. -/
theorem get_ovn_dhcp_options_no_gateway_witness :
    (get_ovn_dhcp_options "43200" 1442 "fa:16:3e:01:02:03"
      { id := "subnet2", cidr := "10.0.0.0/24", ip_version := 4,
        enable_dhcp := true, gateway_ip := none,
        dns_nameservers := ["8.8.8.8"],
        host_routes := [{ destination := "192.168.50.0/24",
                          nexthop := "10.0.0.1" }],
        ipv6_address_mode := none }
      none).options = [] :=
  (get_ovn_dhcp_options_no_gateway "43200" 1442 "fa:16:3e:01:02:03"
    { id := "subnet2", cidr := "10.0.0.0/24", ip_version := 4,
      enable_dhcp := true, gateway_ip := none,
      dns_nameservers := ["8.8.8.8"],
      host_routes := [{ destination := "192.168.50.0/24",
                        nexthop := "10.0.0.1" }],
      ipv6_address_mode := none }
    none rfl rfl rfl).1

/-- Helper: a dict.update with a single fresh binding makes that key
resolve to the new value, whether or not the key existed before. -/
theorem lookup_dictUpdate_single (d : List (String × String)) (k v : String) :
    (dictUpdate d [(k, v)]).lookup k = some v := by
  induction d with
  | nil => simp [dictUpdate, List.lookup]
  | cons kv rest ih =>
    obtain ⟨a, b⟩ := kv
    by_cases hak : a = k
    · subst hak
      simp [dictUpdate, List.lookup]
    · have hbeq : (k == a) = false := by
        simp only [beq_eq_false_iff_ne, ne_eq]
        exact fun h => hak h.symm
      simp only [dictUpdate, List.map_cons, List.cons_append, List.lookup,
        hbeq, List.filter_cons] at ih ⊢
      simpa [List.lookup, hbeq] using ih

/-- C4: get_port_dhcp_options returns nothing when DHCP is disabled for
the port at the requested IP version, and when the store holds no
subnet-level DHCP options row for the port fixed-IP subnets of that
version; it returns the existing subnet row when the port has no extra
DHCP options — so two such ports resolving to the same subnet row get
the same result — and with extra options it returns a pending creation
command whose options merge the subnet options with the port extra
options and whose external ids are tagged with the port id. -/
theorem get_port_dhcp_options_spec
    (get_lsp_dhcp_opts : DhcpPort → Nat → Bool × List (String × String))
    (get_subnets_dhcp_options : List String → List OvnDhcpRow)
    (port : DhcpPort) (ip_version : Nat) :
    ((get_lsp_dhcp_opts port ip_version).1 = true →
      get_port_dhcp_options get_lsp_dhcp_opts get_subnets_dhcp_options port
        ip_version = .nothing) ∧
    (get_subnets_dhcp_options
        ((port.fixed_ips.filter
          (fun fixed_ip => fixed_ip.ip_version = ip_version)).map
            (·.subnet_id)) = [] →
      get_port_dhcp_options get_lsp_dhcp_opts get_subnets_dhcp_options port
        ip_version = .nothing) ∧
    (∀ row, get_lsp_dhcp_opts port ip_version = (false, []) →
      _get_subnet_dhcp_options_for_port get_subnets_dhcp_options port
        ip_version = some row →
      get_port_dhcp_options get_lsp_dhcp_opts get_subnets_dhcp_options port
        ip_version = .row row) ∧
    (∀ port2 row, get_lsp_dhcp_opts port ip_version = (false, []) →
      get_lsp_dhcp_opts port2 ip_version = (false, []) →
      _get_subnet_dhcp_options_for_port get_subnets_dhcp_options port
        ip_version = some row →
      _get_subnet_dhcp_options_for_port get_subnets_dhcp_options port2
        ip_version = some row →
      get_port_dhcp_options get_lsp_dhcp_opts get_subnets_dhcp_options port
        ip_version =
      get_port_dhcp_options get_lsp_dhcp_opts get_subnets_dhcp_options port2
        ip_version) ∧
    (∀ opts row, get_lsp_dhcp_opts port ip_version = (false, opts) →
      opts ≠ [] →
      _get_subnet_dhcp_options_for_port get_subnets_dhcp_options port
        ip_version = some row →
      ∃ c, get_port_dhcp_options get_lsp_dhcp_opts get_subnets_dhcp_options
          port ip_version = .cmd c ∧
        c.port_id = port.id ∧
        c.cidr = row.cidr ∧
        c.options = dictUpdate row.options opts ∧
        c.external_ids.lookup "port_id" = some port.id) := by
  refine ⟨?_, ?_, ?_, ?_, ?_⟩
  · intro hdis
    simp [get_port_dhcp_options, hdis]
  · intro hstore
    simp [get_port_dhcp_options, _get_subnet_dhcp_options_for_port, hstore]
  · intro row hlsp hrow
    simp [get_port_dhcp_options, hlsp, hrow]
  · intro port2 row hlsp1 hlsp2 hrow1 hrow2
    simp [get_port_dhcp_options, hlsp1, hlsp2, hrow1, hrow2]
  · intro opts row hlsp hopts hrow
    have hnotempty : opts.isEmpty = false := by
      cases opts with
      | nil => exact absurd rfl hopts
      | cons a t => rfl
    refine ⟨{ subnet_id := (List.lookup "subnet_id"
                (dictUpdate row.external_ids [("port_id", port.id)])).getD "",
              port_id := port.id, cidr := row.cidr,
              options := dictUpdate row.options opts,
              external_ids := dictUpdate row.external_ids
                [("port_id", port.id)] },
           ?_, rfl, rfl, rfl,
           lookup_dictUpdate_single row.external_ids "port_id" port.id⟩
    simp [get_port_dhcp_options, hlsp, hrow, hnotempty]

/-- Witness for get_port_dhcp_options_spec: concrete instantiations of
all five conjuncts — DHCP disabled, no subnet row, row reuse, equal
results for two ports on the same subnet row, and pending command for a
port with an extra mtu 9000 option. -/
theorem get_port_dhcp_options_spec_witness :
    get_port_dhcp_options (fun _ _ => (true, [])) (fun _ => []) exPortA 4 =
      .nothing ∧
    get_port_dhcp_options (fun _ _ => (false, [])) (fun _ => []) exPortA 4 =
      .nothing ∧
    get_port_dhcp_options (fun _ _ => (false, [])) (fun _ => [exRow])
      exPortA 4 = .row exRow ∧
    get_port_dhcp_options (fun _ _ => (false, [])) (fun _ => [exRow])
      exPortA 4 =
      get_port_dhcp_options (fun _ _ => (false, [])) (fun _ => [exRow])
        exPortB 4 ∧
    (∃ c, get_port_dhcp_options (fun _ _ => (false, [("mtu", "9000")]))
        (fun _ => [exRow]) exPortA 4 = .cmd c ∧
      c.port_id = exPortA.id ∧
      c.cidr = exRow.cidr ∧
      c.options = dictUpdate exRow.options [("mtu", "9000")] ∧
      c.external_ids.lookup "port_id" = some exPortA.id) := by
  refine ⟨?_, ?_, ?_, ?_, ?_⟩
  · exact (get_port_dhcp_options_spec (fun _ _ => (true, [])) (fun _ => [])
      exPortA 4).1 rfl
  · exact (get_port_dhcp_options_spec (fun _ _ => (false, [])) (fun _ => [])
      exPortA 4).2.1 rfl
  · exact (get_port_dhcp_options_spec (fun _ _ => (false, []))
      (fun _ => [exRow]) exPortA 4).2.2.1 exRow rfl rfl
  · exact (get_port_dhcp_options_spec (fun _ _ => (false, []))
      (fun _ => [exRow]) exPortA 4).2.2.2.1 exPortB exRow rfl rfl rfl rfl
  · exact (get_port_dhcp_options_spec (fun _ _ => (false, [("mtu", "9000")]))
      (fun _ => [exRow]) exPortA 4).2.2.2.2 [("mtu", "9000")] exRow rfl
      (List.cons_ne_nil _ _) rfl

/-- C8: set_port_status_down catches and logs a PortNotFound or
DBReferenceError raised by the port lookup or by the status update and
returns normally; for an existing port it inserts the provisioning
block and then updates the status to DOWN, in that order; any other
exception type propagates. -/
theorem set_port_status_down_spec
    (get_port : String → Except PluginError PluginPort)
    (update_port_status : String → String → Except PluginError Unit)
    (port_id : String) :
    (∀ e, get_port port_id = .error e → isStatusDownCaught e = true →
      set_port_status_down get_port update_port_status port_id = .ok []) ∧
    (∀ port, get_port port_id = .ok port →
      update_port_status port.id PORT_STATUS_DOWN = .ok () →
      set_port_status_down get_port update_port_status port_id =
        .ok [.insertProvisioningBlock port.id,
             .updatePortStatus port.id PORT_STATUS_DOWN]) ∧
    (∀ port e, get_port port_id = .ok port →
      update_port_status port.id PORT_STATUS_DOWN = .error e →
      isStatusDownCaught e = true →
      set_port_status_down get_port update_port_status port_id =
        .ok [.insertProvisioningBlock port.id]) ∧
    (∀ e, get_port port_id = .error e → isStatusDownCaught e = false →
      set_port_status_down get_port update_port_status port_id = .error e) ∧
    (∀ port e, get_port port_id = .ok port →
      update_port_status port.id PORT_STATUS_DOWN = .error e →
      isStatusDownCaught e = false →
      set_port_status_down get_port update_port_status port_id =
        .error e) := by
  refine ⟨?_, ?_, ?_, ?_, ?_⟩
  · intro e hget hcaught
    simp [set_port_status_down, hget, hcaught]
  · intro port hget hupd
    simp [set_port_status_down, hget, hupd]
  · intro port e hget hupd hcaught
    simp [set_port_status_down, hget, hupd, hcaught]
  · intro e hget hcaught
    simp [set_port_status_down, hget, hcaught]
  · intro port e hget hupd hcaught
    simp [set_port_status_down, hget, hupd, hcaught]

/-- Witness for set_port_status_down_spec: a deleted port (lookup raises
PortNotFound) is handled without propagation, an existing port gets the
block inserted and the status updated, and an unrelated error
propagates. -/
theorem set_port_status_down_spec_witness :
    set_port_status_down (fun _ => .error .portNotFound)
      (fun _ _ => .ok ()) "p1" = .ok [] ∧
    set_port_status_down (fun _ => .ok { id := "p1" })
      (fun _ _ => .ok ()) "p1" =
      .ok [.insertProvisioningBlock "p1",
           .updatePortStatus "p1" PORT_STATUS_DOWN] ∧
    set_port_status_down (fun _ => .error (.other "boom"))
      (fun _ _ => .ok ()) "p1" = .error (.other "boom") := by
  refine ⟨?_, ?_, ?_⟩
  · exact (set_port_status_down_spec (fun _ => .error .portNotFound)
      (fun _ _ => .ok ()) "p1").1 .portNotFound rfl rfl
  · exact (set_port_status_down_spec (fun _ => .ok { id := "p1" })
      (fun _ _ => .ok ()) "p1").2.1 { id := "p1" } rfl rfl
  · exact (set_port_status_down_spec (fun _ => .error (.other "boom"))
      (fun _ _ => .ok ()) "p1").2.2.2.1 (.other "boom") rfl rfl

/-- Helper: every command a dhcp options slot adds is an addDhcpOptions
command. -/
theorem mem_dhcpCmds {r : PortDhcpResult} {c : OvnCmd} (h : c ∈ dhcpCmds r) :
    ∃ x, c = .addDhcpOptions x := by
  cases r with
  | nothing => simp [dhcpCmds] at h
  | row r => simp [dhcpCmds] at h
  | cmd c0 =>
    simp [dhcpCmds] at h
    exact ⟨c0, h⟩

/-- Helper: no command of this transaction model creates an address
set, so a successful command application leaves the address set listing
unchanged. -/
theorem applyCmd_address_sets {st st2 : NbStore} {c : OvnCmd}
    (h : applyCmd st c = .ok st2) : st2.address_sets = st.address_sets := by
  cases c with
  | addDhcpOptions c0 =>
    simp only [applyCmd] at h
    cases h
    rfl
  | createLSwitchPort a b =>
    simp only [applyCmd] at h
    cases h
    rfl
  | setLSwitchPort a b =>
    simp only [applyCmd] at h
    cases h
    rfl
  | addAcl a =>
    simp only [applyCmd] at h
    cases h
    rfl
  | updateAcls a =>
    simp only [applyCmd] at h
    cases h
    rfl
  | updateAddressSet n aa ar ie =>
    simp only [applyCmd] at h
    split_ifs at h with h1 h2
    · cases h
      rfl
    · cases h
      rfl

/-- Helper: a transaction containing an update_address_set command with
if_exists false on an address set absent from the store always aborts
with an error. -/
theorem runTxn_error_of_missing {cmds : List OvnCmd} {st : NbStore}
    {n : String} {aa ar : Option (List String)}
    (hmem : OvnCmd.updateAddressSet n aa ar false ∈ cmds)
    (habs : st.address_sets.contains n = false) :
    ∃ e, runTxn st cmds = .error e := by
  induction cmds generalizing st with
  | nil => cases hmem
  | cons c rest ih =>
    rcases List.mem_cons.mp hmem with hc | hc
    · subst hc
      refine ⟨n, ?_⟩
      have habs2 : ¬ n ∈ st.address_sets := by simpa using habs
      simp [runTxn, applyCmd, habs2]
    · cases hap : applyCmd st c with
      | error e =>
        refine ⟨e, ?_⟩
        simp [runTxn, hap]
      | ok st2 =>
        have hsame := applyCmd_address_sets hap
        have habs2 : st2.address_sets.contains n = false := by
          rw [hsame]
          exact habs
        obtain ⟨e, he⟩ := ih hc habs2
        refine ⟨e, ?_⟩
        simp [runTxn, hap, he]

/-- C9: in create_port_in_ovn every address set update is issued with
if_exists false, and consequently, for a port with fixed IPs and at
least one security group whose address set (for a version where the
port has addresses) is absent from the store, the whole batched
transaction — including the logical switch port creation — fails with
an error. -/
theorem create_port_address_sets_fail_closed
    (get_lsp_security_groups : OvnPort → List String)
    (acl_port_ips : OvnPort → String → List String)
    (acls_new : List String) (port : OvnPort) (info : PortInfo)
    (st : NbStore) :
    (∀ n aa ar ie, OvnCmd.updateAddressSet n aa ar ie ∈
        create_port_in_ovn get_lsp_security_groups acl_port_ips acls_new
          port info → ie = false) ∧
    (∀ sg ∈ get_lsp_security_groups port, ∀ ipv ∈ ip_versions,
      port.fixed_ips ≠ [] →
      acl_port_ips port ipv ≠ [] →
      st.address_sets.contains (ovn_addrset_name sg ipv) = false →
      ∃ e, runTxn st (create_port_in_ovn get_lsp_security_groups acl_port_ips
        acls_new port info) = .error e) := by
  constructor
  · intro n aa ar ie hmem
    simp only [create_port_in_ovn, List.append_assoc] at hmem
    rcases List.mem_append.mp hmem with h4 | hmem
    · obtain ⟨x, hx⟩ := mem_dhcpCmds h4
      exact OvnCmd.noConfusion hx
    rcases List.mem_append.mp hmem with h6 | hmem
    · obtain ⟨x, hx⟩ := mem_dhcpCmds h6
      exact OvnCmd.noConfusion hx
    rcases List.mem_append.mp hmem with hcr | hmem
    · simp at hcr
    rcases List.mem_append.mp hmem with hacl | haddr
    · simp only [List.mem_map] at hacl
      obtain ⟨a, _, ha⟩ := hacl
      exact OvnCmd.noConfusion ha
    · split at haddr
      · simp only [List.mem_flatMap, List.mem_filterMap] at haddr
        obtain ⟨sg, _, ipv, _, hsome⟩ := haddr
        split at hsome
        · have := Option.some.inj hsome
          have hfields := OvnCmd.updateAddressSet.inj this
          exact hfields.2.2.2.symm
        · exact Option.noConfusion hsome
      · cases haddr
  · intro sg hsg ipv hipv hfix happ habs
    have hmem : OvnCmd.updateAddressSet (ovn_addrset_name sg ipv)
        (some (acl_port_ips port ipv)) none false ∈
        create_port_in_ovn get_lsp_security_groups acl_port_ips acls_new
          port info := by
      simp only [create_port_in_ovn, List.append_assoc]
      refine List.mem_append.mpr (Or.inr ?_)
      refine List.mem_append.mpr (Or.inr ?_)
      refine List.mem_append.mpr (Or.inr ?_)
      refine List.mem_append.mpr (Or.inr ?_)
      rw [if_pos ⟨hfix, List.ne_nil_of_mem hsg⟩]
      refine List.mem_flatMap.mpr ⟨sg, hsg, ?_⟩
      refine List.mem_filterMap.mpr ⟨ipv, hipv, ?_⟩
      rw [if_pos happ]
    exact runTxn_error_of_missing hmem habs

/-- C2: when the security group set of a port is unchanged but its fixed
IPs changed (and at least one of the old or new fixed-IP lists is
non-empty), every address set command of _update_port_in_ovn targets the
address set of a group the port is (still) a member of, carries as
additions exactly the new-minus-old addresses of that IP version and as
removals exactly the old-minus-new ones, and is only issued when one of
the two deltas is non-empty; conversely such a command is issued for
every retained group and IP version with a non-empty delta.  The third
conjunct pins down the deltas as set differences by membership. -/
theorem update_port_unchanged_sg_addr_set_diffs
    (get_lsp_security_groups : OvnPort → List String)
    (acl_port_ips : OvnPort → String → List String)
    (original_port port : OvnPort) (info : PortInfo)
    (hsg : ∀ s, s ∈ get_lsp_security_groups original_port ↔
      s ∈ get_lsp_security_groups port)
    (hfix : original_port.fixed_ips ≠ port.fixed_ips)
    (hne : port.fixed_ips ≠ [] ∨ original_port.fixed_ips ≠ []) :
    (∀ n aa ar ie,
      OvnCmd.updateAddressSet n aa ar ie ∈
        _update_port_in_ovn get_lsp_security_groups acl_port_ips
          original_port port info →
      ∃ sg, sg ∈ get_lsp_security_groups port ∧ ∃ ipv ∈ ip_versions,
        n = ovn_addrset_name sg ipv ∧
        ((acl_port_ips port ipv).filter
            (fun a => ¬ (acl_port_ips original_port ipv).contains a) ≠ [] ∨
         (acl_port_ips original_port ipv).filter
            (fun a => ¬ (acl_port_ips port ipv).contains a) ≠ []) ∧
        aa = (if (acl_port_ips port ipv).filter
            (fun a => ¬ (acl_port_ips original_port ipv).contains a) = []
          then none
          else some ((acl_port_ips port ipv).filter
            (fun a => ¬ (acl_port_ips original_port ipv).contains a))) ∧
        ar = (if (acl_port_ips original_port ipv).filter
            (fun a => ¬ (acl_port_ips port ipv).contains a) = []
          then none
          else some ((acl_port_ips original_port ipv).filter
            (fun a => ¬ (acl_port_ips port ipv).contains a)))) ∧
    (∀ sg ∈ get_lsp_security_groups port, ∀ ipv ∈ ip_versions,
      ((acl_port_ips port ipv).filter
          (fun a => ¬ (acl_port_ips original_port ipv).contains a) ≠ [] ∨
       (acl_port_ips original_port ipv).filter
          (fun a => ¬ (acl_port_ips port ipv).contains a) ≠ []) →
      OvnCmd.updateAddressSet (ovn_addrset_name sg ipv)
        (if (acl_port_ips port ipv).filter
            (fun a => ¬ (acl_port_ips original_port ipv).contains a) = []
          then none
          else some ((acl_port_ips port ipv).filter
            (fun a => ¬ (acl_port_ips original_port ipv).contains a)))
        (if (acl_port_ips original_port ipv).filter
            (fun a => ¬ (acl_port_ips port ipv).contains a) = []
          then none
          else some ((acl_port_ips original_port ipv).filter
            (fun a => ¬ (acl_port_ips port ipv).contains a))) true ∈
        _update_port_in_ovn get_lsp_security_groups acl_port_ips
          original_port port info) ∧
    (∀ ipv a,
      (a ∈ (acl_port_ips port ipv).filter
          (fun a => ¬ (acl_port_ips original_port ipv).contains a) ↔
        (a ∈ acl_port_ips port ipv ∧ ¬ a ∈ acl_port_ips original_port ipv)) ∧
      (a ∈ (acl_port_ips original_port ipv).filter
          (fun a => ¬ (acl_port_ips port ipv).contains a) ↔
        (a ∈ acl_port_ips original_port ipv ∧ ¬ a ∈ acl_port_ips port ipv))) := by
  have hlen : port.fixed_ips.length ≠ 0 ∨ original_port.fixed_ips.length ≠ 0 := by
    rcases hne with h | h
    · exact Or.inl (by simpa [List.length_eq_zero] using h)
    · exact Or.inr (by simpa [List.length_eq_zero] using h)
  refine ⟨?_, ?_, ?_⟩
  · intro n aa ar ie hmem
    simp only [_update_port_in_ovn] at hmem
    rcases List.mem_append.mp hmem with hmem | haddr
    · rcases List.mem_append.mp hmem with hmem | hacl
      · rcases List.mem_append.mp hmem with hmem | hset
        · rcases List.mem_append.mp hmem with h4 | h6
          · obtain ⟨x, hx⟩ := mem_dhcpCmds h4
            exact OvnCmd.noConfusion hx
          · obtain ⟨x, hx⟩ := mem_dhcpCmds h6
            exact OvnCmd.noConfusion hx
        · simp at hset
      · split at hacl
        · simp at hacl
        · exact absurd hacl (List.not_mem_nil _)
    · rw [if_pos hlen] at haddr
      rcases List.mem_append.mp haddr with hmem | hunch
      · rcases List.mem_append.mp hmem with hatt | hdet
        · unfold attachedAddrSetCmds at hatt
          simp only [List.mem_flatMap] at hatt
          obtain ⟨sg, hsgmem, _⟩ := hatt
          have h2 := List.mem_filter.mp hsgmem
          have hin : sg ∈ (get_lsp_security_groups original_port).dedup :=
            List.mem_dedup.mpr ((hsg sg).mpr (List.mem_dedup.mp h2.1))
          have hcontains :
              (get_lsp_security_groups original_port).dedup.contains sg = true := by
            simpa using hin
          rw [hcontains] at h2
          simp at h2
        · unfold detachedAddrSetCmds at hdet
          simp only [List.mem_flatMap] at hdet
          obtain ⟨sg, hsgmem, _⟩ := hdet
          have h2 := List.mem_filter.mp hsgmem
          have hin : sg ∈ (get_lsp_security_groups port).dedup :=
            List.mem_dedup.mpr ((hsg sg).mp (List.mem_dedup.mp h2.1))
          have hcontains :
              (get_lsp_security_groups port).dedup.contains sg = true := by
            simpa using hin
          rw [hcontains] at h2
          simp at h2
      · rw [if_pos hfix] at hunch
        unfold unchangedAddrSetCmds at hunch
        simp only [List.mem_flatMap, List.mem_filterMap] at hunch
        obtain ⟨sg, hsgmem, ipv, hipv, hsome⟩ := hunch
        have hsgport : sg ∈ get_lsp_security_groups port :=
          List.mem_dedup.mp (List.mem_filter.mp hsgmem).1
        split at hsome
        case isTrue hcond =>
          have heq := Option.some.inj hsome
          have hfields := OvnCmd.updateAddressSet.inj heq
          exact ⟨sg, hsgport, ipv, hipv, hfields.1.symm, hcond,
            hfields.2.1.symm, hfields.2.2.1.symm⟩
        case isFalse =>
          exact Option.noConfusion hsome
  · intro sg hsgmem ipv hipv hcond
    simp only [_update_port_in_ovn]
    refine List.mem_append.mpr (Or.inr ?_)
    rw [if_pos hlen]
    refine List.mem_append.mpr (Or.inr ?_)
    rw [if_pos hfix]
    unfold unchangedAddrSetCmds
    refine List.mem_flatMap.mpr ⟨sg, ?_, ?_⟩
    · refine List.mem_filter.mpr ⟨List.mem_dedup.mpr hsgmem, ?_⟩
      have hin : sg ∈ (get_lsp_security_groups original_port).dedup :=
        List.mem_dedup.mpr ((hsg sg).mpr hsgmem)
      simpa using hin
    · refine List.mem_filterMap.mpr ⟨ipv, hipv, ?_⟩
      rw [if_pos hcond]
  · intro ipv a
    constructor
    · simp [List.mem_filter]
    · simp [List.mem_filter]

/-- Witness for update_port_unchanged_sg_addr_set_diffs: a port of group
sgA whose only fixed IP moves from 10.0.0.5 to 10.0.0.6 gets an address
set command on as_ip4_sgA adding the 10.0.0.6 string and removing the
10.0.0.5 string. -/
theorem update_port_unchanged_sg_addr_set_diffs_witness :
    OvnCmd.updateAddressSet (ovn_addrset_name "sgA" "ip4")
      (if (exAclPortIps exOvnPortNew "ip4").filter
          (fun a => ¬ (exAclPortIps exOvnPortOld "ip4").contains a) = []
        then none
        else some ((exAclPortIps exOvnPortNew "ip4").filter
          (fun a => ¬ (exAclPortIps exOvnPortOld "ip4").contains a)))
      (if (exAclPortIps exOvnPortOld "ip4").filter
          (fun a => ¬ (exAclPortIps exOvnPortNew "ip4").contains a) = []
        then none
        else some ((exAclPortIps exOvnPortOld "ip4").filter
          (fun a => ¬ (exAclPortIps exOvnPortNew "ip4").contains a))) true ∈
      _update_port_in_ovn (fun _ => ["sgA"]) exAclPortIps exOvnPortOld
        exOvnPortNew { dhcpv4_options := .nothing, dhcpv6_options := .nothing } :=
  (update_port_unchanged_sg_addr_set_diffs (fun _ => ["sgA"]) exAclPortIps
    exOvnPortOld exOvnPortNew
    { dhcpv4_options := .nothing, dhcpv6_options := .nothing }
    (fun _ => Iff.rfl) (by decide) (Or.inl (by decide))).2.1
    "sgA" (by decide) "ip4" (by decide) (Or.inl (by decide))

/-- Witness for create_port_address_sets_fail_closed: a port with a
fixed IP and group sgA against a store with no address sets makes the
whole create transaction fail. -/
theorem create_port_address_sets_fail_closed_witness :
    ∃ e, runTxn { address_sets := [], lswitch_ports := [] }
      (create_port_in_ovn (fun _ => ["sgA"]) exAclPortIps []
        exOvnPortNew
        { dhcpv4_options := .nothing, dhcpv6_options := .nothing }) =
      .error e :=
  (create_port_address_sets_fail_closed (fun _ => ["sgA"]) exAclPortIps []
    exOvnPortNew { dhcpv4_options := .nothing, dhcpv6_options := .nothing }
    { address_sets := [], lswitch_ports := [] }).2
    "sgA" (by decide) "ip4" (by decide) (by decide) (by decide) rfl

end MechDriver
